import Mathlib

/-!
Verification of the droid LED-control application (`src/main.py`).

The program keeps a logical state (`DroidState`: an enabled flag and a
flash rate), maps it to a hardware command (`LEDController.apply_state`),
and updates the state from two UI event handlers (`on_toggle_change`,
`on_rate_change`).

Embedding conventions:
* Python floats are modelled by `PyFloat`: either an exact number
  (a rational) or NaN.  All comparisons mirror Python semantics, where
  every comparison with NaN is false.  Division mirrors Python float
  division: division by `0.0` raises `ZeroDivisionError` (modelled as
  `Option.none`), while division involving NaN yields NaN.
* The hardware side effect of `apply_state` is modelled by the command
  value it issues (`LEDMode`): either `led.off()` (`steadyOff`) or
  `led.blink(on_time, off_time, ...)` (`blinking on_time off_time`).
  A possible runtime error is `Option.none`.
* The raw UI value `e.value` handed to `on_rate_change` is modelled by
  `RawValue`: Python `None`, a numeric value, a string (represented by
  the result of `float(...)` on it: `some v` when it parses, `Option.none`
  when `float` raises `ValueError`), or any other object on which
  `float` raises `TypeError`.
-/

/-- A Python float as used by this program: an exact rational number or NaN. -/
inductive PyFloat where
  | nan : PyFloat
  | num : ℚ → PyFloat
deriving DecidableEq, Repr

/-- Python `a < b` on floats: any comparison with NaN is false. -/
def pyLt : PyFloat → PyFloat → Bool
  | .num a, .num b => a < b
  | _, _ => false

/-- Python `a <= b` on floats: any comparison with NaN is false. -/
def pyLe : PyFloat → PyFloat → Bool
  | .num a, .num b => a ≤ b
  | _, _ => false

/-- Python float division `a / b`: `ZeroDivisionError` (`Option.none`) when
`b` is `0.0`; NaN propagates; otherwise exact rational division. -/
def pyDiv (a b : PyFloat) : Option PyFloat :=
  match b with
  | .num q =>
      if q = 0 then Option.none
      else
        match a with
        | .num p => some (.num (p / q))
        | .nan => some .nan
  | .nan => some .nan

/-- `DroidState.__init__`: the logical state of the droid's LED behavior. -/
structure DroidState where
  enabled : Bool
  flash_rate_hz : PyFloat
deriving DecidableEq, Repr

/-- The module-level `state = DroidState()` with the defaults
`enabled=False, flash_rate_hz=1.0`. -/
def initState : DroidState := { enabled := false, flash_rate_hz := .num 1 }

/-- The command `apply_state` issues to the LED: `led.off()` or
`led.blink(on_time, off_time, background=True)`. -/
inductive LEDMode where
  | steadyOff : LEDMode
  | blinking : PyFloat → PyFloat → LEDMode
deriving DecidableEq, Repr

/-- `LEDController.apply_state`: apply the logical state to the physical
LED.  Returns the command issued, or `Option.none` on a runtime error. -/
def apply_state (state : DroidState) : Option LEDMode :=
  if !state.enabled || pyLe state.flash_rate_hz (.num 0) then
    some .steadyOff
  else
    (pyDiv (.num 1) state.flash_rate_hz).bind fun period =>
    (pyDiv period (.num 2)).bind fun on_time =>
    (pyDiv period (.num 2)).bind fun off_time =>
    some (.blinking on_time off_time)

/-- `apply_state` in state-passing form: the method body only reads
`state.enabled` and `state.flash_rate_hz` and assigns no field, so the
state component of the result is the input state. -/
def apply_state_full (state : DroidState) : DroidState × Option LEDMode :=
  (state, apply_state state)

/-- Two consecutive calls of `apply_state` on the same snapshot; the
second call runs after the first succeeded and its result is what the
hardware ends up doing. -/
def apply_state_twice (state : DroidState) : Option LEDMode :=
  (apply_state state).bind fun _ => apply_state state

/-- The raw `e.value` received by `on_rate_change`. -/
inductive RawValue where
  | pyNone : RawValue
  | pyNum : PyFloat → RawValue
  | pyStr : Option PyFloat → RawValue
  | pyOther : RawValue
deriving DecidableEq, Repr

/-- The `try` block of `on_rate_change`:
`value = float(e.value) if e.value is not None else 0.0`, with
`TypeError` and `ValueError` caught and replaced by `0.0`. -/
def parseValue : RawValue → PyFloat
  | .pyNone => .num 0
  | .pyNum v => v
  | .pyStr (some v) => v
  | .pyStr Option.none => .num 0
  | .pyOther => .num 0

/-- The clamping in `on_rate_change`:
`if value < 0: value = 0.0` then `if value > 50: value = 50.0`. -/
def clampValue (value : PyFloat) : PyFloat :=
  let v1 := if pyLt value (.num 0) then PyFloat.num 0 else value
  if pyLt (.num 50) v1 then PyFloat.num 50 else v1

/-- `on_rate_change`: parse, clamp, store into `state.flash_rate_hz`,
then `update_hardware()` (i.e. `apply_state` on the new state). -/
def on_rate_change (e : RawValue) (state : DroidState) :
    DroidState × Option LEDMode :=
  let value := clampValue (parseValue e)
  let state2 : DroidState := { state with flash_rate_hz := value }
  (state2, apply_state state2)

/-- `on_toggle_change`: store `bool(e.value)` into `state.enabled`, then
`update_hardware()`.  The truthiness of `e.value` is the Bool argument. -/
def on_toggle_change (v : Bool) (state : DroidState) :
    DroidState × Option LEDMode :=
  let state2 : DroidState := { state with enabled := v }
  (state2, apply_state state2)

/-- The stored flash rate is a number in the closed interval `[0, 50]`. -/
def rateInRange : PyFloat → Bool
  | .num q => decide (0 ≤ q ∧ q ≤ 50)
  | .nan => false

/-- Helper: clamping any exact number yields a number in `[0, 50]`. -/
theorem clampValue_num_range (q : ℚ) :
    rateInRange (clampValue (.num q)) = true := by
  simp only [clampValue, pyLt, rateInRange]
  split_ifs with h1 h2 <;> simp_all

/-- C1: for every snapshot with `enabled = true` and rate `r > 0`,
`apply_state` commands BLINKING with
`on_time = off_time = 1/(2*r)` seconds. -/
theorem apply_state_blinking (r : ℚ) (h : 0 < r) :
    apply_state { enabled := true, flash_rate_hz := .num r } =
      some (.blinking (.num (1/(2*r))) (.num (1/(2*r)))) := by
  have hr0 : r ≠ 0 := ne_of_gt h
  simp only [apply_state, pyLe, pyDiv, Bool.not_true, Bool.false_or,
    decide_eq_true_eq, hr0, if_neg (not_le.mpr h)]
  norm_num
  ring

/-- Witness for C1 at the concrete rate `r = 2`. -/
theorem apply_state_blinking_witness :
    (0:ℚ) < 2 ∧
    apply_state { enabled := true, flash_rate_hz := .num 2 } =
      some (.blinking (.num (1/(2*2))) (.num (1/(2*2)))) :=
  ⟨by norm_num, apply_state_blinking 2 (by norm_num)⟩

/-- Helper: on an exact number, the two clamping `if`s compute
`max 0 (min 50 q)`. -/
theorem clampValue_num (q : ℚ) :
    clampValue (.num q) = .num (max 0 (min 50 q)) := by
  rcases lt_or_le q 0 with h1 | h1
  · have hm : max 0 (min 50 q) = 0 := by
      rw [min_eq_right (by linarith : q ≤ 50), max_eq_left h1.le]
    rw [hm]
    norm_num [clampValue, pyLt, h1]
  · rcases lt_or_le 50 q with h2 | h2
    · have hm : max 0 (min 50 q) = 50 := by
        rw [min_eq_left h2.le, max_eq_right (by norm_num : (0:ℚ) ≤ 50)]
      rw [hm]
      norm_num [clampValue, pyLt, not_lt.mpr h1, h2]
    · have hm : max 0 (min 50 q) = q := by
        rw [min_eq_right h2, max_eq_right h1]
      rw [hm]
      norm_num [clampValue, pyLt, not_lt.mpr h1, not_lt.mpr h2]

/-- C2: every raw value that parses to a number `n` is stored as
`max 0 (min 50 n)` by the rate-change handler. -/
theorem on_rate_change_stores_clamped (e : RawValue) (n : ℚ)
    (s : DroidState) (h : parseValue e = .num n) :
    ((on_rate_change e s).1).flash_rate_hz = .num (max 0 (min 50 n)) := by
  show clampValue (parseValue e) = _
  rw [h, clampValue_num]

/-- Witness for C2 at the concrete raw string value parsing to `-5`. -/
theorem on_rate_change_stores_clamped_witness :
    ((on_rate_change (.pyStr (some (.num (-5)))) initState).1).flash_rate_hz =
      .num (max 0 (min 50 (-5))) :=
  on_rate_change_stores_clamped (.pyStr (some (.num (-5)))) (-5) initState rfl

/-- C3: every snapshot with `enabled = false` makes `apply_state` command
the steady OFF state, whatever the rate (a number or NaN). -/
theorem apply_state_disabled (r : PyFloat) :
    apply_state { enabled := false, flash_rate_hz := r } =
      some .steadyOff := by
  simp [apply_state]

/-- C4: every snapshot with `enabled = true` and rate `r ≤ 0` makes
`apply_state` command the steady OFF state; the result is `some`, so the
division `1 / r` is never evaluated and no `ZeroDivisionError` occurs. -/
theorem apply_state_nonpos_rate (r : ℚ) (h : r ≤ 0) :
    apply_state { enabled := true, flash_rate_hz := .num r } =
      some .steadyOff := by
  simp [apply_state, pyLe, h]

/-- Witness for C4 at the concrete rate `r = 0`. -/
theorem apply_state_nonpos_rate_witness :
    (0:ℚ) ≤ 0 ∧
    apply_state { enabled := true, flash_rate_hz := .num 0 } =
      some .steadyOff :=
  ⟨le_refl 0, apply_state_nonpos_rate 0 (le_refl 0)⟩

/-- C6: calling `apply_state` twice with the same snapshot leaves the
output exactly as one call does. -/
theorem apply_state_idempotent (s : DroidState) :
    apply_state_twice s = apply_state s := by
  cases h : apply_state s <;> simp [apply_state_twice, h]

/-- C8: `apply_state` only reads the snapshot; the state after the call
is the state before it. -/
theorem apply_state_frame (s : DroidState) : (apply_state_full s).1 = s := rfl

/-- C10: the toggle handler leaves `flash_rate_hz` unchanged and the
rate handler leaves `enabled` unchanged, for every input. -/
theorem handlers_frame (v : Bool) (e : RawValue) (s : DroidState) :
    ((on_toggle_change v s).1).flash_rate_hz = s.flash_rate_hz ∧
    ((on_rate_change e s).1).enabled = s.enabled :=
  ⟨rfl, rfl⟩

/-- C5 counterexample: the raw value NaN parses successfully, passes both
clamping tests unchanged, and so the stored `flash_rate_hz` after
`on_rate_change` is NaN, which is not in `[0, 50]`.  This refutes the
claim that the stored rate is in `[0, 50]` for every possible input. -/
theorem rate_invariant_counterexample :
    rateInRange
      (((on_rate_change (.pyNum .nan) initState).1).flash_rate_hz) = false :=
  rfl

/-- C5 (amended): the initial rate `1.0` is in `[0, 50]`; the toggle
handler never changes the stored rate; and the rate handler stores a
rate in `[0, 50]` whenever the input does not parse to NaN (out-of-range
numbers go to the nearest bound, non-numeric and absent inputs to `0`). -/
theorem rate_invariant_amended :
    rateInRange initState.flash_rate_hz = true ∧
    (∀ (v : Bool) (s : DroidState),
      ((on_toggle_change v s).1).flash_rate_hz = s.flash_rate_hz) ∧
    (∀ (e : RawValue) (s : DroidState), parseValue e ≠ .nan →
      rateInRange (((on_rate_change e s).1).flash_rate_hz) = true) := by
  refine ⟨by decide, fun v s => rfl, fun e s h => ?_⟩
  show rateInRange (clampValue (parseValue e)) = true
  cases hp : parseValue e with
  | nan => exact absurd hp h
  | num q => exact clampValue_num_range q

/-- Witness for C5 (amended) at the concrete out-of-range input `75`. -/
theorem rate_invariant_amended_witness :
    rateInRange
      (((on_rate_change (.pyNum (.num 75)) initState).1).flash_rate_hz) =
      true :=
  rate_invariant_amended.2.2 (.pyNum (.num 75)) initState (by decide)

/-- C7: for every absent (`None`), unparsable-string, or non-convertible
raw value, the rate-change handler completes normally (the exception is
caught, the hardware call returns a command, no error escapes) and
stores rate `0`. -/
theorem on_rate_change_invalid_input (e : RawValue) (s : DroidState)
    (h : e = .pyNone ∨ e = .pyStr Option.none ∨ e = .pyOther) :
    ((on_rate_change e s).1).flash_rate_hz = .num 0 ∧
    ((on_rate_change e s).2).isSome = true := by
  have hstore : ((on_rate_change e s).1).flash_rate_hz = .num 0 := by
    rcases h with h | h | h <;> subst h <;> rfl
  refine ⟨hstore, ?_⟩
  show (apply_state ((on_rate_change e s).1)).isSome = true
  rw [apply_state, hstore]
  simp [pyLe]

/-- Witness for C7 at the concrete absent input `None`. -/
theorem on_rate_change_invalid_input_witness :
    ((on_rate_change .pyNone initState).1).flash_rate_hz = .num 0 ∧
    ((on_rate_change .pyNone initState).2).isSome = true :=
  on_rate_change_invalid_input .pyNone initState (Or.inl rfl)

/-- C9: every raw value that parses to NaN is stored unchanged as the
flash rate: both `value < 0` and `value > 50` are false for NaN, so
neither clamp replaces it. -/
theorem on_rate_change_nan (e : RawValue) (s : DroidState)
    (h : parseValue e = .nan) :
    ((on_rate_change e s).1).flash_rate_hz = .nan := by
  show clampValue (parseValue e) = .nan
  rw [h]
  rfl

/-- Witness for C9 at the concrete string input parsing to NaN. -/
theorem on_rate_change_nan_witness :
    ((on_rate_change (.pyStr (some .nan)) initState).1).flash_rate_hz =
      .nan :=
  on_rate_change_nan (.pyStr (some .nan)) initState rfl
